import Mathlib

/-!
Shallow embedding of the lesson service of `teach-niche-v2`
(`apps/api/src/lessons`: service, repository, router, errors).

Database rows are modelled as Lean structures carrying their relations
(a lesson carries its purchase and review records); the Prisma queries of
the repository become pure functions over those structures, and the
service methods become functions into `Except LessonError`.
-/

deriving instance DecidableEq for Except

namespace TeachNiche

/-- JavaScript `String.prototype.trim` as called in
`LessonService.validateLessonInput`: strip leading and trailing
whitespace characters. -/
def jsTrim (s : String) : String :=
  ⟨((s.data.dropWhile Char.isWhitespace).reverse.dropWhile Char.isWhitespace).reverse⟩

/-- User roles, from the `UserSession.role` string union used throughout
`apps/api/src/lessons` (`'STUDENT' | 'INSTRUCTOR' | 'ADMIN'`). -/
inductive Role where
  | STUDENT
  | INSTRUCTOR
  | ADMIN
deriving DecidableEq, Repr

/-- The `UserSession` of `@teach-niche/types`: the authenticated caller,
with Firebase uid and role. -/
structure UserSession where
  uid : String
  role : Role
deriving DecidableEq, Repr

/-- Purchase status enum of the Prisma schema
(`PENDING | COMPLETED | FAILED | REFUNDED`). -/
inductive PurchaseStatus where
  | PENDING
  | COMPLETED
  | FAILED
  | REFUNDED
deriving DecidableEq, Repr

/-- A purchase record associated with a lesson. -/
structure Purchase where
  userId : String
  amount : Int
  status : PurchaseStatus
deriving DecidableEq, Repr

/-- A review record associated with a lesson (only the rating matters to
the operations modelled here). -/
structure Review where
  userId : String
  rating : Int
deriving DecidableEq, Repr

/-- A lesson row together with its relations, as returned by
`LessonRepository.findById` with `includePurchases`/`includeReviews`.
The `purchases` list is unfiltered: `findById` includes every purchase
row regardless of status. -/
structure Lesson where
  id : String
  title : String
  description : Option String
  price : Int
  category : Option String
  published : Bool
  instructorId : String
  purchases : List Purchase
  reviews : List Review
deriving DecidableEq, Repr

/-- The error classes of `apps/api/src/lessons/errors.ts`, as kinds. -/
inductive LessonError where
  /-- Class `LessonNotFoundError(lessonId)` (404, `LESSON_NOT_FOUND`). -/
  | NotFound (lessonId : String)
  /-- Class `LessonNotPublishedError(lessonId)` (403, `LESSON_NOT_PUBLISHED`). -/
  | NotPublished (lessonId : String)
  /-- Class `LessonPermissionDeniedError(lessonId, userId)` (403,
  `LESSON_PERMISSION_DENIED`). -/
  | PermissionDenied (lessonId : String) (userId : String)
  /-- Class `LessonValidationError(field, message)` (400,
  `LESSON_VALIDATION_ERROR`). -/
  | ValidationError (field : String) (message : String)
  /-- Class `InvalidLessonPriceError(price)` (400, `INVALID_LESSON_PRICE`). -/
  | InvalidPrice (price : Int)
  /-- Class `LessonHasPurchasesError(lessonId, purchaseCount)` (409,
  `LESSON_HAS_PURCHASES`). -/
  | HasPurchases (lessonId : String) (purchaseCount : Nat)
deriving DecidableEq, Repr

/-- The `CreateLessonInput` of `apps/api/src/lessons/types.ts` (the
`instructorId` is added by the service from the session, so it is not
part of the validated input here). -/
structure CreateLessonInput where
  title : String
  description : Option String
  price : Int
  category : Option String
deriving DecidableEq, Repr

/-- The `LessonSearchFilters` of `apps/api/src/lessons/types.ts`. -/
structure LessonSearchFilters where
  query : Option String := none
  category : Option String := none
  minPrice : Option Int := none
  maxPrice : Option Int := none
  instructorId : Option String := none
  published : Option Bool := none
  limit : Option Nat := none
  offset : Option Nat := none
deriving DecidableEq, Repr

/-- Sort direction (`'asc' | 'desc'`). -/
inductive SortDirection where
  | asc
  | desc
deriving DecidableEq, Repr

/-- The `LessonSortOptions` shape. The field is kept as a string: the declared TS
union is erased at runtime and the router forwards the raw `sortBy`
query string, so `buildOrderBy` really switches over arbitrary strings. -/
structure LessonSortOptions where
  field : String
  direction : SortDirection
deriving DecidableEq, Repr

/-- The Prisma `orderBy` clause produced by
`LessonRepository.buildOrderBy`: exactly one of the three columns,
with a direction. -/
inductive OrderBy where
  | price (direction : SortDirection)
  | title (direction : SortDirection)
  | createdAt (direction : SortDirection)
deriving DecidableEq, Repr

/-- Result shape of `LessonRepository.getLessonStats`. -/
structure LessonStats where
  purchaseCount : Nat
  totalRevenue : Int
  averageRating : Option Rat
  reviewCount : Nat
deriving DecidableEq, Repr

/-- Method `LessonRepository.findById`: `prisma.lesson.findUnique({where: {id}})`
over a store of lesson rows. -/
def findById (store : List Lesson) (lessonId : String) : Option Lesson :=
  store.find? (fun l => l.id == lessonId)

/-- Method `LessonRepository.getLessonStats`: purchases are fetched with
`where: { lessonId, status: 'COMPLETED' }` — only COMPLETED purchases
are counted and summed; reviews are unfiltered. -/
def getLessonStats (lesson : Lesson) : LessonStats :=
  let purchases := lesson.purchases.filter (fun p => p.status == PurchaseStatus.COMPLETED)
  let purchaseCount := purchases.length
  let totalRevenue := (purchases.map (fun p => p.amount)).sum
  let reviewCount := lesson.reviews.length
  let averageRating : Option Rat :=
    if reviewCount > 0 then
      some (((lesson.reviews.map (fun r => (r.rating : Rat))).sum) / (reviewCount : Rat))
    else none
  { purchaseCount, totalRevenue, averageRating, reviewCount }

/-- Method `LessonRepository.buildOrderBy`: `switch (sort.field)` with cases
`'price'`, `'title'`, and `'createdAt'`/default both returning the
`createdAt` clause, always carrying `sort.direction`. -/
def buildOrderBy (sort : LessonSortOptions) : OrderBy :=
  if sort.field == "price" then OrderBy.price sort.direction
  else if sort.field == "title" then OrderBy.title sort.direction
  else OrderBy.createdAt sort.direction

/-- The router's sort-field mapping in `GET /api/lessons`
(`router.ts`): `field: sortBy === 'created' ? 'createdAt' : sortBy`. -/
def routerSortField (sortBy : String) : String :=
  if sortBy == "created" then "createdAt" else sortBy

/-- Method `LessonService.validatePrice`:
`if (price < 100 || price > 99999) throw new InvalidLessonPriceError(price)`. -/
def validatePrice (price : Int) : Except LessonError Unit :=
  if price < 100 || price > 99999 then
    Except.error (LessonError.InvalidPrice price)
  else
    Except.ok ()

/-- Method `LessonService.validateLessonInput`: title required/non-empty after
trimming, then title length ≤ 200, then description length ≤ 2000 when
present (an absent description is skipped, as is the empty string,
which is falsy in JS), then `validatePrice`. Each `throw` short-circuits. -/
def validateLessonInput (input : CreateLessonInput) : Except LessonError Unit :=
  if input.title == "" || (jsTrim input.title).length == 0 then
    Except.error (LessonError.ValidationError "title" "Title is required")
  else if input.title.length > 200 then
    Except.error (LessonError.ValidationError "title" "Title must be 200 characters or less")
  else if (match input.description with
           | some d => d != "" && d.length > 2000
           | none => false) then
    Except.error (LessonError.ValidationError "description" "Description must be 2000 characters or less")
  else
    validatePrice input.price

/-- Method `LessonService.createLesson`: `validateLessonInput` runs first, then
the role gate `if (instructorSession.role !== 'INSTRUCTOR') throw new
LessonPermissionDeniedError('create', instructorSession.uid)`, then the
repository insert (the database-generated id is passed in as `newId`;
`published` defaults to `false` in `LessonRepository.createLesson`). -/
def createLesson (input : CreateLessonInput) (instructorSession : UserSession)
    (newId : String) : Except LessonError Lesson :=
  match validateLessonInput input with
  | Except.error e => Except.error e
  | Except.ok _ =>
    if instructorSession.role != Role.INSTRUCTOR then
      Except.error (LessonError.PermissionDenied "create" instructorSession.uid)
    else
      Except.ok
        { id := newId
          title := input.title
          description := input.description
          price := input.price
          category := input.category
          published := false
          instructorId := instructorSession.uid
          purchases := []
          reviews := [] }

/-- The create-lesson gate seen end to end: the router's `requireAuth`
middleware rejects an absent caller with 401 before the service runs, and
the service rejects any present caller whose role is not `INSTRUCTOR`. -/
def canCreateLesson (caller : Option UserSession) : Bool :=
  match caller with
  | none => false
  | some s => s.role == Role.INSTRUCTOR

/-- Method `LessonService.getLessonById` up to its visibility gate: not-found
check, then — for an unpublished lesson — access iff a session is
present and `rawLesson.instructorId === userSession.uid || userSession.role
=== 'ADMIN'`, else `LessonNotPublishedError`. On success it returns the
lesson row (the DTO transform is not modelled). -/
def getLessonById (lessonId : String) (store : List Lesson)
    (userSession : Option UserSession) : Except LessonError Lesson :=
  match findById store lessonId with
  | none => Except.error (LessonError.NotFound lessonId)
  | some rawLesson =>
    if rawLesson.published = false then
      let canAccess : Bool :=
        match userSession with
        | some s => rawLesson.instructorId == s.uid || s.role == Role.ADMIN
        | none => false
      if canAccess = false then
        Except.error (LessonError.NotPublished lessonId)
      else
        Except.ok rawLesson
    else
      Except.ok rawLesson

/-- The filter coercion at the head of `LessonService.searchLessons`:
`{...filters, published: userSession?.role === 'INSTRUCTOR' ?
filters.published : true}`. -/
def filterSearchVisibility (filters : LessonSearchFilters)
    (userSession : Option UserSession) : LessonSearchFilters :=
  { filters with
    published :=
      match userSession with
      | some s => if s.role == Role.INSTRUCTOR then filters.published else some true
      | none => some true }

/-- Method `LessonService.deleteLesson` over a store of lesson rows: not-found
check, then the permission gate (`existingLesson.instructorId !==
userSession.uid && userSession.role !== 'ADMIN'`), then the purchase
gate on the length of the unfiltered purchase list
(`existingLesson.purchases?.length || 0`), and only then
`repository.deleteLesson` (removal from the store). -/
def deleteLesson (store : List Lesson) (lessonId : String)
    (userSession : UserSession) : Except LessonError (List Lesson) :=
  match findById store lessonId with
  | none => Except.error (LessonError.NotFound lessonId)
  | some existingLesson =>
    if existingLesson.instructorId != userSession.uid
        && userSession.role != Role.ADMIN then
      Except.error (LessonError.PermissionDenied lessonId userSession.uid)
    else
      let purchaseCount := existingLesson.purchases.length
      if purchaseCount > 0 then
        Except.error (LessonError.HasPurchases lessonId purchaseCount)
      else
        Except.ok (store.filter (fun l => l.id != lessonId))

/-- Branch analysis of `deleteLesson` once the lesson has been found:
permission gate first, then the purchase gate, then the removal. -/
theorem deleteLesson_branches (store : List Lesson) (lessonId : String)
    (l : Lesson) (u : UserSession) (hfind : findById store lessonId = some l) :
    (¬ (l.instructorId = u.uid ∨ u.role = Role.ADMIN) →
      deleteLesson store lessonId u
        = Except.error (LessonError.PermissionDenied lessonId u.uid))
    ∧ ((l.instructorId = u.uid ∨ u.role = Role.ADMIN) → 0 < l.purchases.length →
      deleteLesson store lessonId u
        = Except.error (LessonError.HasPurchases lessonId l.purchases.length))
    ∧ ((l.instructorId = u.uid ∨ u.role = Role.ADMIN) → l.purchases.length = 0 →
      deleteLesson store lessonId u
        = Except.ok (store.filter (fun x => x.id != lessonId))) := by
  unfold deleteLesson
  rw [hfind]
  refine ⟨fun h => ?_, fun h hp => ?_, fun h hp => ?_⟩
  · rw [not_or] at h
    simp [h.1, h.2]
  · rcases h with h | h <;> simp [h, hp, Nat.pos_iff_ne_zero]
  · rcases h with h | h <;> simp [h, hp]

/-- C1: after the existence check, `deleteLesson` fails with
`PermissionDenied` whenever the caller is neither the lesson's owner nor
an `ADMIN`, regardless of the purchase count; otherwise it fails with
`HasPurchases` whenever the purchase count is positive (even for an
`ADMIN`); otherwise it succeeds. The permission gate is evaluated before
the purchase gate. -/
theorem deleteLesson_gate_order (store : List Lesson) (lessonId : String)
    (l : Lesson) (u : UserSession) (hfind : findById store lessonId = some l) :
    (¬ (l.instructorId = u.uid ∨ u.role = Role.ADMIN) →
      deleteLesson store lessonId u
        = Except.error (LessonError.PermissionDenied lessonId u.uid))
    ∧ ((l.instructorId = u.uid ∨ u.role = Role.ADMIN) → 0 < l.purchases.length →
      deleteLesson store lessonId u
        = Except.error (LessonError.HasPurchases lessonId l.purchases.length))
    ∧ ((l.instructorId = u.uid ∨ u.role = Role.ADMIN) → l.purchases.length = 0 →
      deleteLesson store lessonId u
        = Except.ok (store.filter (fun x => x.id != lessonId))) :=
  deleteLesson_branches store lessonId l u hfind

/-- C1 witness: a non-owner `STUDENT` is denied even though a purchase
exists; an `ADMIN` passes the permission gate but is stopped by the
purchase gate; the owner deletes a purchase-free lesson. -/
theorem deleteLesson_gate_order_witness :
    deleteLesson
        [⟨"L1", "T", none, 2999, none, true, "U1",
          [⟨"S1", 2999, PurchaseStatus.PENDING⟩], []⟩]
        "L1" ⟨"U2", Role.STUDENT⟩
      = Except.error (LessonError.PermissionDenied "L1" "U2")
    ∧ deleteLesson
        [⟨"L1", "T", none, 2999, none, true, "U1",
          [⟨"S1", 2999, PurchaseStatus.PENDING⟩], []⟩]
        "L1" ⟨"A1", Role.ADMIN⟩
      = Except.error (LessonError.HasPurchases "L1" 1)
    ∧ deleteLesson [⟨"L1", "T", none, 2999, none, true, "U1", [], []⟩]
        "L1" ⟨"U1", Role.INSTRUCTOR⟩
      = Except.ok [] :=
  ⟨(deleteLesson_gate_order _ "L1"
      ⟨"L1", "T", none, 2999, none, true, "U1",
        [⟨"S1", 2999, PurchaseStatus.PENDING⟩], []⟩
      ⟨"U2", Role.STUDENT⟩ (by decide)).1 (by decide),
   (deleteLesson_gate_order _ "L1"
      ⟨"L1", "T", none, 2999, none, true, "U1",
        [⟨"S1", 2999, PurchaseStatus.PENDING⟩], []⟩
      ⟨"A1", Role.ADMIN⟩ (by decide)).2.1 (by decide) (by decide),
   (deleteLesson_gate_order _ "L1"
      ⟨"L1", "T", none, 2999, none, true, "U1", [], []⟩
      ⟨"U1", Role.INSTRUCTOR⟩ (by decide)).2.2 (by decide) (by decide)⟩

/-- C3: `filterSearchVisibility` forces `published = some true` whenever
the caller is absent or has a role other than `INSTRUCTOR`, discarding
the requested value; an `INSTRUCTOR` caller's `published` value passes
through unchanged (including `none`, meaning both); every other filter
field is passed through unmodified. -/
theorem filterSearchVisibility_spec (filters : LessonSearchFilters)
    (userSession : Option UserSession) :
    (userSession.map UserSession.role ≠ some Role.INSTRUCTOR →
      (filterSearchVisibility filters userSession).published = some true)
    ∧ (userSession.map UserSession.role = some Role.INSTRUCTOR →
      (filterSearchVisibility filters userSession).published = filters.published)
    ∧ (filterSearchVisibility filters userSession).query = filters.query
    ∧ (filterSearchVisibility filters userSession).category = filters.category
    ∧ (filterSearchVisibility filters userSession).minPrice = filters.minPrice
    ∧ (filterSearchVisibility filters userSession).maxPrice = filters.maxPrice
    ∧ (filterSearchVisibility filters userSession).instructorId = filters.instructorId
    ∧ (filterSearchVisibility filters userSession).limit = filters.limit
    ∧ (filterSearchVisibility filters userSession).offset = filters.offset := by
  unfold filterSearchVisibility
  cases userSession with
  | none => simp
  | some s =>
    by_cases h : s.role = Role.INSTRUCTOR <;> simp [h]

/-- C3 witness: an `ADMIN` caller requesting `published = some false` has
it coerced to `some true`; an `INSTRUCTOR` caller keeps `some false`, and
also keeps `none`. -/
theorem filterSearchVisibility_spec_witness :
    (filterSearchVisibility { published := some false } (some ⟨"A1", Role.ADMIN⟩)).published
      = some true
    ∧ (filterSearchVisibility { published := some false } none).published = some true
    ∧ (filterSearchVisibility { published := some false }
        (some ⟨"U1", Role.INSTRUCTOR⟩)).published = some false
    ∧ (filterSearchVisibility {} (some ⟨"U1", Role.INSTRUCTOR⟩)).published = none :=
  ⟨(filterSearchVisibility_spec { published := some false }
      (some ⟨"A1", Role.ADMIN⟩)).1 (by decide),
   (filterSearchVisibility_spec { published := some false } none).1 (by decide),
   (filterSearchVisibility_spec { published := some false }
      (some ⟨"U1", Role.INSTRUCTOR⟩)).2.1 (by decide),
   (filterSearchVisibility_spec {} (some ⟨"U1", Role.INSTRUCTOR⟩)).2.1 (by decide)⟩

/-- C9: `buildOrderBy` sorts by `price` and `title` when those fields are
requested and falls back to `createdAt` for every other field (including
`purchaseCount`, `averageRating`, and the router's raw `'rating'` and
`'purchases'` keys, which `routerSortField` forwards unchanged); the sort
direction is preserved in every case. -/
theorem buildOrderBy_spec (sort : LessonSortOptions) :
    (sort.field = "price" → buildOrderBy sort = OrderBy.price sort.direction)
    ∧ (sort.field = "title" → buildOrderBy sort = OrderBy.title sort.direction)
    ∧ (sort.field ≠ "price" → sort.field ≠ "title" →
        buildOrderBy sort = OrderBy.createdAt sort.direction)
    ∧ (∀ d, buildOrderBy ⟨"purchaseCount", d⟩ = OrderBy.createdAt d)
    ∧ (∀ d, buildOrderBy ⟨"averageRating", d⟩ = OrderBy.createdAt d)
    ∧ (∀ d, buildOrderBy ⟨routerSortField "rating", d⟩ = OrderBy.createdAt d)
    ∧ (∀ d, buildOrderBy ⟨routerSortField "purchases", d⟩ = OrderBy.createdAt d)
    ∧ (∀ d, buildOrderBy ⟨routerSortField "created", d⟩ = OrderBy.createdAt d)
    ∧ (∀ d, buildOrderBy ⟨routerSortField "price", d⟩ = OrderBy.price d)
    ∧ (∀ d, buildOrderBy ⟨routerSortField "title", d⟩ = OrderBy.title d) := by
  refine ⟨fun h => ?_, fun h => ?_, fun h1 h2 => ?_, ?_, ?_, ?_, ?_, ?_, ?_, ?_⟩
  · simp [buildOrderBy, h]
  · simp [buildOrderBy, h]
  · simp [buildOrderBy, h1, h2]
  all_goals intro d
  all_goals simp [buildOrderBy, routerSortField]

/-- C9 witness: concrete fallback and pass-through cases, both
directions. -/
theorem buildOrderBy_spec_witness :
    buildOrderBy ⟨"purchaseCount", SortDirection.asc⟩
      = OrderBy.createdAt SortDirection.asc
    ∧ buildOrderBy ⟨routerSortField "rating", SortDirection.desc⟩
      = OrderBy.createdAt SortDirection.desc
    ∧ buildOrderBy ⟨"price", SortDirection.desc⟩ = OrderBy.price SortDirection.desc
    ∧ buildOrderBy ⟨"title", SortDirection.asc⟩ = OrderBy.title SortDirection.asc :=
  ⟨(buildOrderBy_spec ⟨"purchaseCount", SortDirection.asc⟩).2.2.2.1 SortDirection.asc,
   (buildOrderBy_spec ⟨"x", SortDirection.desc⟩).2.2.2.2.2.1 SortDirection.desc,
   (buildOrderBy_spec ⟨"price", SortDirection.desc⟩).1 (by decide),
   (buildOrderBy_spec ⟨"title", SortDirection.asc⟩).2.1 (by decide)⟩

/-- C2: the visibility gate of `getLessonById` lets every caller,
including the anonymous (absent) one, read a published lesson; an
unpublished lesson is readable exactly when a session is present and the
session's uid is the lesson's owner or the session's role is `ADMIN`. -/
theorem getLessonById_visibility (store : List Lesson) (lessonId : String)
    (l : Lesson) (userSession : Option UserSession)
    (hfind : findById store lessonId = some l) :
    (l.published = true → getLessonById lessonId store userSession = Except.ok l)
    ∧ (l.published = false →
      (getLessonById lessonId store userSession = Except.ok l ↔
        ∃ s, userSession = some s
          ∧ (l.instructorId = s.uid ∨ s.role = Role.ADMIN))) := by
  unfold getLessonById
  rw [hfind]
  constructor
  · intro h
    simp [h]
  · intro h
    simp only [h]
    cases userSession with
    | none => simp
    | some s =>
      by_cases hacc : l.instructorId = s.uid ∨ s.role = Role.ADMIN
      · rcases hacc with hacc | hacc <;> simp [hacc]
      · rw [not_or] at hacc
        simp [hacc.1, hacc.2]

/-- C2 witness: a published lesson is visible anonymously; an unpublished
lesson is visible to its owner and to an admin, and invisible to a
stranger student and to the anonymous caller. -/
theorem getLessonById_visibility_witness :
    getLessonById "L1" [⟨"L1", "T", none, 2999, none, true, "U1", [], []⟩] none
      = Except.ok ⟨"L1", "T", none, 2999, none, true, "U1", [], []⟩
    ∧ getLessonById "L2" [⟨"L2", "T", none, 2999, none, false, "U1", [], []⟩]
        (some ⟨"U1", Role.INSTRUCTOR⟩)
      = Except.ok ⟨"L2", "T", none, 2999, none, false, "U1", [], []⟩
    ∧ getLessonById "L2" [⟨"L2", "T", none, 2999, none, false, "U1", [], []⟩]
        (some ⟨"A1", Role.ADMIN⟩)
      = Except.ok ⟨"L2", "T", none, 2999, none, false, "U1", [], []⟩
    ∧ getLessonById "L2" [⟨"L2", "T", none, 2999, none, false, "U1", [], []⟩]
        (some ⟨"U2", Role.STUDENT⟩)
      ≠ Except.ok ⟨"L2", "T", none, 2999, none, false, "U1", [], []⟩
    ∧ getLessonById "L2" [⟨"L2", "T", none, 2999, none, false, "U1", [], []⟩] none
      ≠ Except.ok ⟨"L2", "T", none, 2999, none, false, "U1", [], []⟩ :=
  ⟨(getLessonById_visibility _ "L1"
      ⟨"L1", "T", none, 2999, none, true, "U1", [], []⟩ none (by decide)).1 rfl,
   ((getLessonById_visibility _ "L2"
      ⟨"L2", "T", none, 2999, none, false, "U1", [], []⟩
      (some ⟨"U1", Role.INSTRUCTOR⟩) (by decide)).2 rfl).mpr
     ⟨⟨"U1", Role.INSTRUCTOR⟩, rfl, Or.inl rfl⟩,
   ((getLessonById_visibility _ "L2"
      ⟨"L2", "T", none, 2999, none, false, "U1", [], []⟩
      (some ⟨"A1", Role.ADMIN⟩) (by decide)).2 rfl).mpr
     ⟨⟨"A1", Role.ADMIN⟩, rfl, Or.inr rfl⟩,
   fun h => by
     have := ((getLessonById_visibility _ "L2"
        ⟨"L2", "T", none, 2999, none, false, "U1", [], []⟩
        (some ⟨"U2", Role.STUDENT⟩) (by decide)).2 rfl).mp h
     rcases this with ⟨s, hs, hor⟩
     cases hs
     rcases hor with hor | hor <;> simp_all,
   fun h => by
     have := ((getLessonById_visibility _ "L2"
        ⟨"L2", "T", none, 2999, none, false, "U1", [], []⟩
        none (by decide)).2 rfl).mp h
     rcases this with ⟨s, hs, hor⟩
     exact Option.noConfusion hs⟩

/-- C4: the create-lesson gate is true exactly for a present caller whose
role is `INSTRUCTOR`; it is false for a present `ADMIN`, a present
`STUDENT`, and the absent caller. On the service itself (for input that
passes validation): a non-`INSTRUCTOR` session gets
`PermissionDenied('create', uid)` and an `INSTRUCTOR` session succeeds. -/
theorem canCreateLesson_spec (caller : Option UserSession) :
    (canCreateLesson caller = true ↔
      ∃ s, caller = some s ∧ s.role = Role.INSTRUCTOR)
    ∧ (∀ s, caller = some s → s.role = Role.ADMIN → canCreateLesson caller = false)
    ∧ (∀ s, caller = some s → s.role = Role.STUDENT → canCreateLesson caller = false)
    ∧ canCreateLesson none = false
    ∧ (∀ (input : CreateLessonInput) (s : UserSession) (newId : String),
        s.role ≠ Role.INSTRUCTOR → validateLessonInput input = Except.ok () →
        createLesson input s newId
          = Except.error (LessonError.PermissionDenied "create" s.uid))
    ∧ (∀ (input : CreateLessonInput) (s : UserSession) (newId : String),
        s.role = Role.INSTRUCTOR → validateLessonInput input = Except.ok () →
        createLesson input s newId = Except.ok
          ⟨newId, input.title, input.description, input.price, input.category,
            false, s.uid, [], []⟩) := by
  refine ⟨?_, ?_, ?_, rfl, ?_, ?_⟩
  · cases caller with
    | none => simp [canCreateLesson]
    | some s =>
      by_cases h : s.role = Role.INSTRUCTOR <;> simp [canCreateLesson, h]
  · rintro s rfl h
    simp [canCreateLesson, h]
  · rintro s rfl h
    simp [canCreateLesson, h]
  · intro input s newId hrole hval
    unfold createLesson
    rw [hval]
    simp [hrole]
  · intro input s newId hrole hval
    unfold createLesson
    rw [hval]
    simp [hrole]

/-- C4 witness: the gate holds for an instructor and fails for admin,
student, and the absent caller; on the service, an admin with valid input
is denied and an instructor succeeds. -/
theorem canCreateLesson_spec_witness :
    canCreateLesson (some ⟨"U1", Role.INSTRUCTOR⟩) = true
    ∧ canCreateLesson (some ⟨"A1", Role.ADMIN⟩) = false
    ∧ canCreateLesson (some ⟨"S1", Role.STUDENT⟩) = false
    ∧ canCreateLesson none = false
    ∧ createLesson ⟨"T", none, 2999, none⟩ ⟨"A1", Role.ADMIN⟩ "L9"
      = Except.error (LessonError.PermissionDenied "create" "A1")
    ∧ createLesson ⟨"T", none, 2999, none⟩ ⟨"U1", Role.INSTRUCTOR⟩ "L9"
      = Except.ok ⟨"L9", "T", none, 2999, none, false, "U1", [], []⟩ :=
  ⟨(canCreateLesson_spec (some ⟨"U1", Role.INSTRUCTOR⟩)).1.mpr
     ⟨⟨"U1", Role.INSTRUCTOR⟩, rfl, rfl⟩,
   (canCreateLesson_spec (some ⟨"A1", Role.ADMIN⟩)).2.1
     ⟨"A1", Role.ADMIN⟩ rfl rfl,
   (canCreateLesson_spec (some ⟨"S1", Role.STUDENT⟩)).2.2.1
     ⟨"S1", Role.STUDENT⟩ rfl rfl,
   (canCreateLesson_spec none).2.2.2.1,
   (canCreateLesson_spec (some ⟨"A1", Role.ADMIN⟩)).2.2.2.2.1
     ⟨"T", none, 2999, none⟩ ⟨"A1", Role.ADMIN⟩ "L9" (by decide) (by decide),
   (canCreateLesson_spec (some ⟨"U1", Role.INSTRUCTOR⟩)).2.2.2.2.2
     ⟨"T", none, 2999, none⟩ ⟨"U1", Role.INSTRUCTOR⟩ "L9" rfl (by decide)⟩

/-- Shape of `getLessonById` results: it either reports the lesson
missing, reports it not published, or returns a lesson row. -/
theorem getLessonById_error_shape (lid : String) (store : List Lesson)
    (us : Option UserSession) :
    getLessonById lid store us = Except.error (LessonError.NotFound lid)
    ∨ getLessonById lid store us = Except.error (LessonError.NotPublished lid)
    ∨ ∃ l, getLessonById lid store us = Except.ok l := by
  cases hf : findById store lid with
  | none =>
    left
    simp [getLessonById, hf]
  | some l' =>
    by_cases hp : l'.published = false
    · by_cases ha : (match us with
        | some s => l'.instructorId == s.uid || s.role == Role.ADMIN
        | none => false) = false
      · right; left
        simp [getLessonById, hf, hp, ha]
      · right; right
        exact ⟨l', by simp [getLessonById, hf, hp, ha]⟩
    · right; right
      exact ⟨l', by simp [getLessonById, hf, hp]⟩

/-- C8: viewing an unpublished lesson as a caller who is neither the
owner nor an `ADMIN` (including the anonymous caller) raises the
`NotPublished` error kind; that kind is distinct from the
`PermissionDenied` kind used for mutation denials, and the viewing path
(`getLessonById`) never produces a `PermissionDenied` error on any
input. -/
theorem getLessonById_never_permission_denied (store : List Lesson)
    (lessonId : String) (l : Lesson) (userSession : Option UserSession)
    (hfind : findById store lessonId = some l)
    (hunpub : l.published = false)
    (hdeny : ∀ s, userSession = some s →
      l.instructorId ≠ s.uid ∧ s.role ≠ Role.ADMIN) :
    getLessonById lessonId store userSession
      = Except.error (LessonError.NotPublished lessonId)
    ∧ (∀ uid, LessonError.NotPublished lessonId
        ≠ LessonError.PermissionDenied lessonId uid)
    ∧ (∀ (store' : List Lesson) (lid : String) (us : Option UserSession)
        (e : LessonError),
        getLessonById lid store' us = Except.error e →
        ∀ a b, e ≠ LessonError.PermissionDenied a b) := by
  refine ⟨?_, fun uid h => LessonError.noConfusion h, ?_⟩
  · unfold getLessonById
    rw [hfind]
    simp only [hunpub]
    cases userSession with
    | none => simp
    | some s =>
      obtain ⟨h1, h2⟩ := hdeny s rfl
      simp [h1, h2]
  · intro store' lid us e he a b
    rcases getLessonById_error_shape lid store' us with hs | hs | ⟨l', hs⟩ <;>
      rw [he] at hs
    · obtain rfl : e = LessonError.NotFound lid := Except.error.inj hs
      exact fun h => LessonError.noConfusion h
    · obtain rfl : e = LessonError.NotPublished lid := Except.error.inj hs
      exact fun h => LessonError.noConfusion h
    · exact absurd hs (by simp)

/-- C8 witness: the stranger-student and anonymous viewing failures are
`NotPublished`, which differs from `PermissionDenied`. -/
theorem getLessonById_never_permission_denied_witness :
    getLessonById "L2" [⟨"L2", "T", none, 2999, none, false, "U1", [], []⟩]
        (some ⟨"U2", Role.STUDENT⟩)
      = Except.error (LessonError.NotPublished "L2")
    ∧ getLessonById "L2" [⟨"L2", "T", none, 2999, none, false, "U1", [], []⟩] none
      = Except.error (LessonError.NotPublished "L2")
    ∧ LessonError.NotPublished "L2" ≠ LessonError.PermissionDenied "L2" "U2" :=
  ⟨(getLessonById_never_permission_denied _ "L2"
      ⟨"L2", "T", none, 2999, none, false, "U1", [], []⟩
      (some ⟨"U2", Role.STUDENT⟩) (by decide) rfl
      (by intro s h
          obtain rfl : (⟨"U2", Role.STUDENT⟩ : UserSession) = s := Option.some.inj h
          exact ⟨by decide, by decide⟩)).1,
   (getLessonById_never_permission_denied _ "L2"
      ⟨"L2", "T", none, 2999, none, false, "U1", [], []⟩
      none (by decide) rfl (by rintro s h; exact Option.noConfusion h)).1,
   (getLessonById_never_permission_denied
      [⟨"L2", "T", none, 2999, none, false, "U1", [], []⟩] "L2"
      ⟨"L2", "T", none, 2999, none, false, "U1", [], []⟩
      none (by decide) rfl (by rintro s h; exact Option.noConfusion h)).2.1 "U2"⟩

/-- C5: a lesson with at least one associated COMPLETED purchase is never
deleted: `deleteLesson` never succeeds on it (for any caller), the
failure is `HasPurchases` whenever the caller has permission, and the
lesson is (and remains) in the store. -/
theorem deleteLesson_completed_purchase_invariant (store : List Lesson)
    (lessonId : String) (l : Lesson) (u : UserSession)
    (hfind : findById store lessonId = some l)
    (hc : ∃ p ∈ l.purchases, p.status = PurchaseStatus.COMPLETED) :
    (∀ store', deleteLesson store lessonId u ≠ Except.ok store')
    ∧ ((l.instructorId = u.uid ∨ u.role = Role.ADMIN) →
      deleteLesson store lessonId u
        = Except.error (LessonError.HasPurchases lessonId l.purchases.length))
    ∧ l ∈ store := by
  obtain ⟨p, hp, -⟩ := hc
  have hlen : 0 < l.purchases.length := List.length_pos.mpr (fun h => by simp [h] at hp)
  refine ⟨fun store' hok => ?_, fun hperm => ?_, ?_⟩
  · by_cases hperm : l.instructorId = u.uid ∨ u.role = Role.ADMIN
    · rw [(deleteLesson_branches store lessonId l u hfind).2.1 hperm hlen] at hok
      exact Except.noConfusion hok
    · rw [(deleteLesson_branches store lessonId l u hfind).1 hperm] at hok
      exact Except.noConfusion hok
  · exact (deleteLesson_branches store lessonId l u hfind).2.1 hperm hlen
  · exact List.mem_of_find?_eq_some hfind

/-- C5 witness: a lesson with one COMPLETED purchase survives a delete
attempt by its owner (the failure is `HasPurchases`) and by a stranger. -/
theorem deleteLesson_completed_purchase_invariant_witness :
    (∀ store', deleteLesson
        [⟨"L1", "T", none, 2999, none, true, "U1",
          [⟨"S1", 2999, PurchaseStatus.COMPLETED⟩], []⟩]
        "L1" ⟨"U1", Role.INSTRUCTOR⟩ ≠ Except.ok store')
    ∧ deleteLesson
        [⟨"L1", "T", none, 2999, none, true, "U1",
          [⟨"S1", 2999, PurchaseStatus.COMPLETED⟩], []⟩]
        "L1" ⟨"U1", Role.INSTRUCTOR⟩
      = Except.error (LessonError.HasPurchases "L1" 1)
    ∧ (∀ store', deleteLesson
        [⟨"L1", "T", none, 2999, none, true, "U1",
          [⟨"S1", 2999, PurchaseStatus.COMPLETED⟩], []⟩]
        "L1" ⟨"U2", Role.STUDENT⟩ ≠ Except.ok store') :=
  ⟨(deleteLesson_completed_purchase_invariant _ "L1"
      ⟨"L1", "T", none, 2999, none, true, "U1",
        [⟨"S1", 2999, PurchaseStatus.COMPLETED⟩], []⟩
      ⟨"U1", Role.INSTRUCTOR⟩ (by decide)
      ⟨⟨"S1", 2999, PurchaseStatus.COMPLETED⟩, by decide, rfl⟩).1,
   (deleteLesson_completed_purchase_invariant _ "L1"
      ⟨"L1", "T", none, 2999, none, true, "U1",
        [⟨"S1", 2999, PurchaseStatus.COMPLETED⟩], []⟩
      ⟨"U1", Role.INSTRUCTOR⟩ (by decide)
      ⟨⟨"S1", 2999, PurchaseStatus.COMPLETED⟩, by decide, rfl⟩).2.1 (Or.inl rfl),
   (deleteLesson_completed_purchase_invariant _ "L1"
      ⟨"L1", "T", none, 2999, none, true, "U1",
        [⟨"S1", 2999, PurchaseStatus.COMPLETED⟩], []⟩
      ⟨"U2", Role.STUDENT⟩ (by decide)
      ⟨⟨"S1", 2999, PurchaseStatus.COMPLETED⟩, by decide, rfl⟩).1⟩

/-- If the title and description checks pass, `validateLessonInput`
falls through to `validatePrice` on the input's price. -/
theorem validateLessonInput_price_path (input : CreateLessonInput)
    (htrim : (jsTrim input.title).length ≠ 0) (hlen : input.title.length ≤ 200)
    (hdesc : ∀ d, input.description = some d → d.length ≤ 2000) :
    validateLessonInput input = validatePrice input.price := by
  have htitle : input.title ≠ "" := by
    intro h
    apply htrim
    rw [h]
    rfl
  unfold validateLessonInput
  rw [if_neg, if_neg, if_neg]
  · cases hd : input.description with
    | none => simp
    | some d =>
      have := hdesc d hd
      simp [this]
  · simp
    omega
  · simp [htitle, htrim]

/-- C6: `validatePrice` accepts exactly the inclusive range
`[100, 99999]`, and every out-of-range price fails with the dedicated
`InvalidPrice` error carrying the offending value; for any input whose
title and description checks pass, `validateLessonInput` reduces to
`validatePrice` on its price, so the boundary behaviour (100 and 99999
accepted, 99 and 100000 rejected) is that of the whole validator. -/
theorem validatePrice_range :
    (∀ price : Int, validatePrice price = Except.ok () ↔
      100 ≤ price ∧ price ≤ 99999)
    ∧ (∀ price : Int, (price < 100 ∨ 99999 < price) →
        validatePrice price = Except.error (LessonError.InvalidPrice price))
    ∧ (∀ input : CreateLessonInput,
        (jsTrim input.title).length ≠ 0 → input.title.length ≤ 200 →
        (∀ d, input.description = some d → d.length ≤ 2000) →
        validateLessonInput input = validatePrice input.price)
    ∧ validatePrice 100 = Except.ok ()
    ∧ validatePrice 99999 = Except.ok ()
    ∧ validatePrice 99 = Except.error (LessonError.InvalidPrice 99)
    ∧ validatePrice 100000 = Except.error (LessonError.InvalidPrice 100000) := by
  refine ⟨fun price => ?_, fun price h => ?_,
    fun input htrim hlen hdesc => validateLessonInput_price_path input htrim hlen hdesc,
    by decide, by decide, by decide, by decide⟩
  · unfold validatePrice
    by_cases h1 : price < 100
    · simp [h1]
    · by_cases h2 : price > 99999
      · simp [h1, h2]
      · simp [h1, h2]
        omega
  · unfold validatePrice
    rcases h with h | h
    · simp [h]
    · have : ¬ price < 100 := by omega
      simp [this, h]

/-- C6 witness: the boundary values through `validateLessonInput` with a
valid title. -/
theorem validatePrice_range_witness :
    validateLessonInput ⟨"ok", none, 100, none⟩ = Except.ok ()
    ∧ validateLessonInput ⟨"ok", none, 99999, none⟩ = Except.ok ()
    ∧ validateLessonInput ⟨"ok", none, 99, none⟩
      = Except.error (LessonError.InvalidPrice 99)
    ∧ validateLessonInput ⟨"ok", none, 100000, none⟩
      = Except.error (LessonError.InvalidPrice 100000)
    ∧ validatePrice 100 = Except.ok ()
    ∧ validatePrice 99 = Except.error (LessonError.InvalidPrice 99) := by
  have h100 := validatePrice_range.2.2.1 ⟨"ok", none, 100, none⟩
    (by decide) (by decide) (by intro d hd; exact Option.noConfusion hd)
  have h99999 := validatePrice_range.2.2.1 ⟨"ok", none, 99999, none⟩
    (by decide) (by decide) (by intro d hd; exact Option.noConfusion hd)
  have h99 := validatePrice_range.2.2.1 ⟨"ok", none, 99, none⟩
    (by decide) (by decide) (by intro d hd; exact Option.noConfusion hd)
  have h100000 := validatePrice_range.2.2.1 ⟨"ok", none, 100000, none⟩
    (by decide) (by decide) (by intro d hd; exact Option.noConfusion hd)
  refine ⟨?_, ?_, ?_, ?_, validatePrice_range.2.2.2.1,
    validatePrice_range.2.2.2.2.2.1⟩
  · rw [h100]
    exact validatePrice_range.1 100 |>.mpr (by decide)
  · rw [h99999]
    exact validatePrice_range.1 99999 |>.mpr (by decide)
  · rw [h99]
    exact validatePrice_range.2.1 99 (Or.inl (by decide))
  · rw [h100000]
    exact validatePrice_range.2.1 100000 (Or.inr (by decide))

/-- C7: `validateLessonInput` checks the title first (required and
non-empty after trimming, then length at most 200), then the
description (at most 2000 characters when present), then the price, and
the first failing check short-circuits: the result is a single error.
In particular an input with an empty title and an out-of-range price
fails with the title `ValidationError`, not `InvalidPrice`. -/
theorem validateLessonInput_order (input : CreateLessonInput) :
    ((jsTrim input.title).length = 0 →
      validateLessonInput input
        = Except.error (LessonError.ValidationError "title" "Title is required"))
    ∧ ((jsTrim input.title).length ≠ 0 → input.title.length > 200 →
      validateLessonInput input
        = Except.error (LessonError.ValidationError "title"
            "Title must be 200 characters or less"))
    ∧ ((jsTrim input.title).length ≠ 0 → input.title.length ≤ 200 →
      (∃ d, input.description = some d ∧ d.length > 2000) →
      validateLessonInput input
        = Except.error (LessonError.ValidationError "description"
            "Description must be 2000 characters or less"))
    ∧ ((jsTrim input.title).length ≠ 0 → input.title.length ≤ 200 →
      (∀ d, input.description = some d → d.length ≤ 2000) →
      validateLessonInput input = validatePrice input.price)
    ∧ validateLessonInput ⟨"", none, 2999, none⟩
      = Except.error (LessonError.ValidationError "title" "Title is required")
    ∧ validateLessonInput ⟨"", none, 100000, none⟩
      = Except.error (LessonError.ValidationError "title" "Title is required")
    ∧ validateLessonInput ⟨"ok", none, 50, none⟩
      = Except.error (LessonError.InvalidPrice 50) := by
  refine ⟨fun htrim => ?_, fun htrim hlen => ?_, fun htrim hlen hdesc => ?_,
    validateLessonInput_price_path input, by decide, by decide, by decide⟩
  · unfold validateLessonInput
    rw [if_pos]
    simp [htrim]
  · have htitle : input.title ≠ "" := by
      intro h
      apply htrim
      rw [h]
      rfl
    unfold validateLessonInput
    rw [if_neg, if_pos]
    · simpa using hlen
    · simp [htitle, htrim]
  · have htitle : input.title ≠ "" := by
      intro h
      apply htrim
      rw [h]
      rfl
    obtain ⟨d, hd, hdlen⟩ := hdesc
    have hdne : d ≠ "" := by
      intro h
      rw [h] at hdlen
      simp at hdlen
    unfold validateLessonInput
    rw [if_neg, if_neg, if_pos]
    · rw [hd]
      simp [hdne, hdlen]
    · simp
      omega
    · simp [htitle, htrim]

/-- C7 witness: an input failing both the title and the price checks is
reported with the title error; the description check fires only after
the title passes; a valid-title input reaches the price check. -/
theorem validateLessonInput_order_witness :
    validateLessonInput ⟨"", none, 100000, none⟩
      = Except.error (LessonError.ValidationError "title" "Title is required")
    ∧ validateLessonInput ⟨"ok", none, 50, none⟩
      = Except.error (LessonError.InvalidPrice 50)
    ∧ validateLessonInput ⟨"ok", none, 2999, none⟩ = Except.ok () := by
  refine ⟨(validateLessonInput_order ⟨"", none, 100000, none⟩).1 (by decide), ?_, ?_⟩
  · rw [(validateLessonInput_order ⟨"ok", none, 50, none⟩).2.2.2.1
      (by decide) (by decide) (by intro d hd; exact Option.noConfusion hd)]
    decide
  · rw [(validateLessonInput_order ⟨"ok", none, 2999, none⟩).2.2.2.1
      (by decide) (by decide) (by intro d hd; exact Option.noConfusion hd)]
    decide

/-- C10: a lesson whose purchase list is non-empty but contains no
COMPLETED purchase still cannot be deleted by an authorized caller — the
purchase gate of `deleteLesson` counts the unfiltered purchase list of
`findById`, unlike `getLessonStats`, whose purchase count (filtered to
COMPLETED) is zero for the same lesson. -/
theorem deleteLesson_blocks_noncompleted_purchases (store : List Lesson)
    (lessonId : String) (l : Lesson) (u : UserSession)
    (hfind : findById store lessonId = some l)
    (hne : l.purchases ≠ [])
    (hnc : ∀ p ∈ l.purchases, p.status ≠ PurchaseStatus.COMPLETED)
    (hperm : l.instructorId = u.uid ∨ u.role = Role.ADMIN) :
    deleteLesson store lessonId u
      = Except.error (LessonError.HasPurchases lessonId l.purchases.length)
    ∧ (getLessonStats l).purchaseCount = 0 := by
  constructor
  · exact (deleteLesson_branches store lessonId l u hfind).2.1 hperm
      (List.length_pos.mpr hne)
  · have : l.purchases.filter (fun p => p.status == PurchaseStatus.COMPLETED) = [] := by
      rw [List.filter_eq_nil_iff]
      intro p hp
      simpa using hnc p hp
    simp [getLessonStats, this]

/-- C10 witness: one PENDING purchase blocks deletion by the owner even
though the stats count zero completed purchases. -/
theorem deleteLesson_blocks_noncompleted_purchases_witness :
    deleteLesson
        [⟨"L1", "T", none, 2999, none, true, "U1",
          [⟨"S1", 2999, PurchaseStatus.PENDING⟩], []⟩]
        "L1" ⟨"U1", Role.INSTRUCTOR⟩
      = Except.error (LessonError.HasPurchases "L1" 1)
    ∧ (getLessonStats
        ⟨"L1", "T", none, 2999, none, true, "U1",
          [⟨"S1", 2999, PurchaseStatus.PENDING⟩], []⟩).purchaseCount = 0 :=
  deleteLesson_blocks_noncompleted_purchases _ "L1"
    ⟨"L1", "T", none, 2999, none, true, "U1",
      [⟨"S1", 2999, PurchaseStatus.PENDING⟩], []⟩
    ⟨"U1", Role.INSTRUCTOR⟩ (by decide) (by decide)
    (by intro p hp
        have : p = ⟨"S1", 2999, PurchaseStatus.PENDING⟩ := by
          simpa using hp
        rw [this]
        decide)
    (Or.inl rfl)

end TeachNiche
